import Mathlib

/-!
Shallow embedding of `mythril/analysis/modules/external_calls.py`
(the `ExternalCallModule` reentrancy detector) and proofs about it.

The module walks a previously computed symbolic-execution statespace:
it filters dangerous `CALL` instructions by gas/target shape, classifies
the provenance of the call destination from its textual rendering,
performs a depth-bounded search of the control-flow graph for storage
writes (`SSTORE`) occurring after the call in the same transaction, and
assembles `Issue` records, deduplicating the search by program address.

Python's mutable list aliasing in `search_children` (the accumulator
passed into a child recursion is the very object the child returns, and
the caller then extends it with itself) is modelled by explicit value
passing: one list object exists per top-level search, so the object's
value after a child call is exactly the child's return value, and
`results += child(results)` becomes `let x := child r; x ++ x`.
-/

/-- Jump-edge kinds, mirroring `JumpType` from `mythril.laser.ethereum.cfg`
(file not under src/; the detector only compares against `Transaction`). -/
inductive JumpType where
  | CONDITIONAL
  | UNCONDITIONAL
  | CALL
  | RETURN
  | Transaction
deriving DecidableEq, Repr

/-- An instruction dictionary: `{"opcode": ..., "address": ...}`. -/
structure Instruction where
  opcode : String
  address : Nat
deriving DecidableEq, Repr

/-- A transaction, identified by `id`. -/
structure Transaction where
  id : Nat
deriving DecidableEq, Repr

/-- An account: the detector reads `active_account.address`. -/
structure Account where
  address : Nat
deriving DecidableEq, Repr

/-- Contract code: the detector reads `code.bytecode`. -/
structure Code where
  bytecode : String
deriving DecidableEq, Repr

/-- Execution environment: `state.environment.active_account` /
`state.environment.code`. -/
structure Environment where
  active_account : Account
  code : Code
deriving DecidableEq, Repr

/-- Machine-state gas bounds: `state.mstate.min_gas_used` / `max_gas_used`. -/
structure MachineState where
  min_gas_used : Nat
  max_gas_used : Nat
deriving DecidableEq, Repr

/-- One symbolic execution state (`GlobalState`): carries its current
instruction, its transaction, its environment and its machine state. -/
structure GlobalState where
  instruction : Instruction
  current_transaction : Transaction
  environment : Environment
  mstate : MachineState
deriving DecidableEq, Repr

/-- `state.get_current_instruction()`. -/
def GlobalState.get_current_instruction (s : GlobalState) : Instruction :=
  s.instruction

/-- A CFG node: unique id, ordered state sequence, contract/function names. -/
structure Node where
  uid : Nat
  states : List GlobalState
  contract_name : String
  function_name : String
deriving DecidableEq, Repr

/-- A directed CFG edge with its jump type. -/
structure Edge where
  node_from : Nat
  node_to : Nat
  type : JumpType
deriving DecidableEq, Repr

/-- Concrete-vs-symbolic tag, mirroring `VarType` from `mythril.analysis.ops`
(file not under src/). -/
inductive VarType where
  | CONCRETE
  | SYMBOLIC
deriving DecidableEq, Repr

/-- Modelled from the spec: `Value = Concrete(number) | Symbolic(text)`
(`mythril.analysis.ops.Variable` is not under src/; the spec's external
interface gives this sum shape).  A Concrete value renders as its decimal
digits; a Symbolic value renders as its expression text. -/
inductive Value where
  | Concrete : Nat → Value
  | Symbolic : String → Value
deriving DecidableEq, Repr

/-- `var.type`. -/
def Value.type : Value → VarType
  | .Concrete _ => .CONCRETE
  | .Symbolic _ => .SYMBOLIC

/-- `var.val`; only ever read by the detector under a CONCRETE type guard,
so the Symbolic default is never observed. -/
def Value.val : Value → Nat
  | .Concrete n => n
  | .Symbolic _ => 0

/-- `str(var)`: the textual rendering used for substring matching. -/
def Value.render : Value → String
  | .Concrete n => toString n
  | .Symbolic t => t

/-- One message-call occurrence from `statespace.calls`. -/
structure Call where
  node : Node
  state : GlobalState
  state_index : Nat
  type : String
  «to» : Value
  gas : Value
  value : Value
deriving Repr

/-- The statespace handed to the detector: nodes indexed by uid (a dict in
the source), the edge list, the call catalogue, and the storage-write
provenance lookup.  `find_storage_write` is modelled from the spec:
`StorageWriteLookup(accountAddress, slotKey) -> Option<functionName>`
(implemented outside src/); `none` stands for the falsy "no writer" result. -/
structure StateSpace where
  nodes : Nat → Node
  edges : List Edge
  calls : List Call
  find_storage_write : Nat → String → Option String

/-- SWC id constant `REENTRANCY` from `mythril.analysis.swc_data`
(not under src/). -/
def REENTRANCY : String := "107"

/-- Modelled from the spec: the `Issue` record produced to the reporting
collaborator (`mythril.analysis.report.Issue` is not under src/); fields are
exactly those the detector passes to the constructor. -/
structure Issue where
  contract : String
  function_name : String
  address : Nat
  title : String
  _type : String
  description : String
  bytecode : String
  swc_id : String
  gas_used : Nat × Nat
deriving DecidableEq, Repr

/-- Does `pat` occur at the head of `l`?  (Used to model Python's
substring test and `re.search` literal matching.) -/
def list_starts : List Char → List Char → Bool
  | [], _ => true
  | _ :: _, [] => false
  | p :: ps, c :: cs => p == c && list_starts ps cs

/-- Does `pat` occur anywhere in `l`? -/
def chars_contain (pat : List Char) : List Char → Bool
  | [] => pat.isEmpty
  | c :: cs => list_starts pat (c :: cs) || chars_contain pat cs

/-- Python's `pat in s` substring test. -/
def str_contains (pat s : String) : Bool :=
  chars_contain pat.data s.data

/-- Character class `[a-z0-9_&^]` of the storage-slot regex. -/
def storage_key_char (c : Char) : Bool :=
  ('a' ≤ c && c ≤ 'z') || ('0' ≤ c && c ≤ '9') || c == '_' || c == '&' || c == '^'

/-- `re.search(r"storage_([a-z0-9_&^]+)", s)`, returning the first capture:
scan left to right for the literal `storage_` followed by at least one
class character; the capture is the maximal run of class characters. -/
def storage_search : List Char → Option String
  | [] => none
  | c :: cs =>
    if list_starts "storage_".data (c :: cs) then
      let key := ((c :: cs).drop 8).takeWhile storage_key_char
      if key.isEmpty then storage_search cs else some (String.mk key)
    else
      storage_search cs

/-- The states scanned and recorded by one node visit of `search_children`:
`for j in range(start_index, n_states)`, keeping the program address of
every `SSTORE` state belonging to transaction `transaction_id`. -/
def node_sstores (node : Node) (transaction_id : Nat) (start_index : Nat) : List Nat :=
  ((node.states.drop start_index).filter
      (fun s => s.get_current_instruction.opcode == "SSTORE"
        && s.current_transaction.id == transaction_id)).map
    (fun s => s.get_current_instruction.address)

/-- The children enumerated by `search_children`: destinations of edges
leaving `node` whose type is not `JumpType.Transaction`. -/
def child_nodes (ss : StateSpace) (node : Node) : List Node :=
  (ss.edges.filter
      (fun e => e.node_from == node.uid && !(e.type == JumpType.Transaction))).map
    (fun e => ss.nodes e.node_to)

/-- Fuel-indexed body of `ExternalCallModule.search_children`.  The fuel
counts the remaining recursion budget `max_search_depth - depth`; the
source's guard `if depth < self.max_search_depth` is kept verbatim, and
at fuel 0 the function returns `results` unchanged, exactly as the guard
does once `depth` reaches the bound (`search_fuel_stable` below proves the
two cut-offs coincide for any sufficient fuel).  The aliased accumulator
of the source (`results += self.search_children(..., results=results)`)
appears as `let x := ... ; x ++ x`: the child call returns the very list
object it extended, so the caller extends the child's result with itself. -/
def search_fuel (ss : StateSpace) (max_search_depth transaction_id : Nat) :
    Nat → Node → Nat → Nat → List Nat → List Nat
  | 0, _, _, _, results => results
  | fuel + 1, node, start_index, depth, results =>
    if depth < max_search_depth then
      (child_nodes ss node).foldl
        (fun r c =>
          let x := search_fuel ss max_search_depth transaction_id fuel c 0 (depth + 1) r
          x ++ x)
        (results ++ node_sstores node transaction_id start_index)
    else
      results

/-- `ExternalCallModule.search_children`: the fuel is instantiated with the
remaining budget `max_search_depth - depth`, which is exactly how often the
source's guard `depth < max_search_depth` can still succeed. -/
def search_children (ss : StateSpace) (max_search_depth transaction_id : Nat)
    (node : Node) (start_index depth : Nat) (results : List Nat) : List Nat :=
  search_fuel ss max_search_depth transaction_id (max_search_depth - depth)
    node start_index depth results

/-- The gas/target filter of `execute` (lines 76–85), with Python's
`and`/`or` precedence: `(A and B) or C`. -/
def call_filter (call : Call) : Bool :=
  (call.«to».type == VarType.SYMBOLIC
      && (call.gas.type == VarType.CONCRETE && decide (2300 < call.gas.val)))
    || (call.gas.type == VarType.SYMBOLIC
      && !(str_contains "2300" call.gas.render))

/-- The target-provenance classification of `execute` (lines 87–123):
returns the description accumulated so far and the `user_supplied` flag. -/
def classify_target (ss : StateSpace) (call : Call) : String × Bool :=
  let description := "This contract executes a message call to "
  let target := call.«to».render
  if str_contains "calldata" target || str_contains "caller" target then
    if str_contains "calldata" target then
      (description ++ "an address provided as a function argument. ", true)
    else
      (description ++ "the address of the transaction sender. ", true)
  else
    match storage_search target.data with
    | some idx =>
      match ss.find_storage_write call.state.environment.active_account.address idx with
      | some func =>
        (description ++ "an address found at storage slot " ++ idx ++ ". "
          ++ "This storage slot can be written to by calling the function `"
          ++ func ++ "`. ", true)
      | none => (description, false)
    | none => (description, false)

/-- The call-level `Issue` built by `execute` (lines 124–164): one record
per flagged call, Warning when the target is user supplied, else
Informational. -/
def call_issue (ss : StateSpace) (call : Call) : Issue :=
  let cls := classify_target ss call
  if cls.2 then
    { contract := call.node.contract_name
      function_name := call.node.function_name
      address := call.state.get_current_instruction.address
      title := "Message call to external contract"
      _type := "Warning"
      description := cls.1
        ++ "Generally, it is not recommended to call user-supplied addresses using Solidity's call() construct. "
        ++ "Note that attackers might leverage reentrancy attacks to exploit race conditions or manipulate this contract's state."
      bytecode := call.state.environment.code.bytecode
      swc_id := REENTRANCY
      gas_used := (call.state.mstate.min_gas_used, call.state.mstate.max_gas_used) }
  else
    { contract := call.node.contract_name
      function_name := call.node.function_name
      address := call.state.get_current_instruction.address
      title := "Message call to external contract"
      _type := "Informational"
      description := cls.1
        ++ "to another contract. Make sure that the called contract is trusted and does not execute user-supplied code."
      bytecode := call.state.environment.code.bytecode
      swc_id := REENTRANCY
      gas_used := (call.state.mstate.min_gas_used, call.state.mstate.max_gas_used) }

/-- The state-change `Issue` built by `execute` (lines 189–215) for one
address found by the post-call search. -/
def state_change_issue (call : Call) (address : Nat) : Issue :=
  { contract := call.node.contract_name
    function_name := call.node.function_name
    address := address
    title := "State change after external call"
    _type := "Warning"
    description := "The contract account state is changed after an external call. "
      ++ "Consider that the called contract could re-enter the function before this "
      ++ "state change takes place. This can lead to business logic vulnerabilities."
    bytecode := call.state.environment.code.bytecode
    swc_id := REENTRANCY
    gas_used := (call.state.mstate.min_gas_used, call.state.mstate.max_gas_used) }

/-- The body of `execute`'s `for call in statespace.calls` loop, threading
the issue list and the `calls_visited` dedup list. -/
def process_call (max_search_depth : Nat) (ss : StateSpace)
    (acc : List Issue × List Nat) (call : Call) : List Issue × List Nat :=
  let issues := acc.1
  let calls_visited := acc.2
  let address := call.state.get_current_instruction.address
  if call.type = "CALL" then
    if call_filter call then
      let issues := issues ++ [call_issue ss call]
      if address ∈ calls_visited then
        (issues, calls_visited)
      else
        let calls_visited := calls_visited ++ [address]
        let state_change_addresses :=
          search_children ss max_search_depth call.state.current_transaction.id
            call.node (call.state_index + 1) 0 []
        (issues ++ state_change_addresses.map (state_change_issue call), calls_visited)
    else
      (issues, calls_visited)
  else
    (issues, calls_visited)

/-- The detector object: `max_search_depth` from `__init__` (default 64)
and the per-instance `calls_visited` dedup list, which `execute` mutates
and which therefore persists across `execute` calls on one instance. -/
structure ExternalCallModule where
  max_search_depth : Nat := 64
  calls_visited : List Nat := []
deriving DecidableEq, Repr

/-- `ExternalCallModule.execute`: fold the loop body over the call
catalogue, starting from a fresh local `issues = []` but from the
instance's persistent `calls_visited`; returns the issues together with
the updated instance. -/
def ExternalCallModule.execute (self : ExternalCallModule) (ss : StateSpace) :
    List Issue × ExternalCallModule :=
  let r := ss.calls.foldl (process_call self.max_search_depth ss) ([], self.calls_visited)
  (r.1, { self with calls_visited := r.2 })

/-- The module-level instance `detector = ExternalCallModule()`. -/
def detector : ExternalCallModule := {}

/-- Transaction 1, shared by the concrete test graphs. -/
def tx1 : Transaction := ⟨1⟩

/-- Environment of the concrete test graphs: account address 99. -/
def envW : Environment := ⟨⟨99⟩, ⟨"6060"⟩⟩

/-- The state performing the external `CALL`, at program address 10. -/
def stCall : GlobalState := ⟨⟨"CALL", 10⟩, tx1, envW, ⟨3, 7⟩⟩

/-- End-to-end graph, node 0: holds only the `CALL` state. -/
def nodeA : Node := ⟨0, [stCall], "TestContract", "run"⟩

/-- End-to-end graph, node 1: an intermediate node without storage write. -/
def nodeB : Node := ⟨1, [⟨⟨"PUSH1", 20⟩, tx1, envW, ⟨0, 0⟩⟩], "TestContract", "run"⟩

/-- End-to-end graph, node 2: one `SSTORE` state at address 0x42 in tx 1. -/
def nodeC : Node := ⟨2, [⟨⟨"SSTORE", 0x42⟩, tx1, envW, ⟨0, 0⟩⟩], "TestContract", "run"⟩

/-- Node table of the end-to-end graph. -/
def nodesE2E : Nat → Node
  | 0 => nodeA
  | 1 => nodeB
  | _ => nodeC

/-- The end-to-end call: kind `CALL`, destination `calldata_arg_0`
(Symbolic), gas Concrete 5000, owned by node 0 at state index 0. -/
def callE2E : Call :=
  ⟨nodeA, stCall, 0, "CALL", Value.Symbolic "calldata_arg_0", Value.Concrete 5000,
    Value.Concrete 0⟩

/-- End-to-end statespace: chain 0 → 1 → 2 over intra-transaction edges,
each node reachable along exactly one path, one call occurrence. -/
def ssE2E : StateSpace :=
  ⟨nodesE2E,
    [⟨0, 1, JumpType.CONDITIONAL⟩, ⟨1, 2, JumpType.CONDITIONAL⟩],
    [callE2E],
    fun _ _ => none⟩

/-- Same graph with the call listed twice (two occurrences at the same
program address). -/
def ssTwoCalls : StateSpace :=
  ⟨nodesE2E,
    [⟨0, 1, JumpType.CONDITIONAL⟩, ⟨1, 2, JumpType.CONDITIONAL⟩],
    [callE2E, callE2E],
    fun _ _ => none⟩

/-- Depth-guard graph, node 0: no storage write. -/
def nodeD0 : Node := ⟨0, [⟨⟨"PUSH1", 5⟩, tx1, envW, ⟨0, 0⟩⟩], "TestContract", "run"⟩

/-- Depth-guard graph, node 1: one `SSTORE` at address 7 in tx 1. -/
def nodeD1 : Node := ⟨1, [⟨⟨"SSTORE", 7⟩, tx1, envW, ⟨0, 0⟩⟩], "TestContract", "run"⟩

/-- Depth-guard statespace: single intra-transaction edge 0 → 1. -/
def ssDepth : StateSpace :=
  ⟨fun n => if n == 1 then nodeD1 else nodeD0,
    [⟨0, 1, JumpType.CONDITIONAL⟩],
    [],
    fun _ _ => none⟩

/-- A flagged call whose destination renders as `storage_3`. -/
def callStorage : Call :=
  ⟨nodeA, stCall, 0, "CALL", Value.Symbolic "storage_3", Value.Concrete 5000,
    Value.Concrete 0⟩

/-- Statespace whose provenance lookup reports `setOwner` as the writer of
slot 3 of account 99. -/
def ssStorageHit : StateSpace :=
  ⟨nodesE2E, [], [callStorage],
    fun a k => if a == 99 && k == "3" then some "setOwner" else none⟩

/-- Statespace whose provenance lookup reports no writer at all. -/
def ssStorageMiss : StateSpace :=
  ⟨nodesE2E, [], [callStorage], fun _ _ => none⟩

/-- The statespace with every `Transaction` edge removed; `search_children`
is blind to this change (see the theorem on claim C8). -/
def remove_transaction_edges (ss : StateSpace) : StateSpace :=
  { ss with edges := ss.edges.filter (fun e => !(e.type == JumpType.Transaction)) }

/-- The call-level findings of an issue list: those titled
"Message call to external contract". -/
def message_call_issues (l : List Issue) : List Issue :=
  l.filter (fun i => i.title == "Message call to external contract")

/-- A list `i ++ x :: l` is never equal to `i`. -/
theorem append_cons_ne {α : Type} (i : List α) (x : α) (l : List α) :
    i ++ x :: l ≠ i := by
  intro h
  have hlen := congrArg List.length h
  simp [List.length_append] at hlen

/-- Unfolding of the gas/target filter into the spec's two branches:
`(destination Symbolic ∧ gas Concrete > 2300) ∨ (gas Symbolic ∧ rendering
without "2300")`. -/
theorem call_filter_eq_true_iff (c : Call) :
    call_filter c = true ↔
      ((c.«to».type = VarType.SYMBOLIC ∧ c.gas.type = VarType.CONCRETE
          ∧ 2300 < c.gas.val)
        ∨ (c.gas.type = VarType.SYMBOLIC
          ∧ str_contains "2300" c.gas.render = false)) := by
  simp [call_filter, Bool.or_eq_true, Bool.and_eq_true, decide_eq_true_eq,
    and_assoc, Bool.not_eq_true']

/-- Both branches of the call-level issue builder use the same title. -/
theorem call_issue_title (ss : StateSpace) (c : Call) :
    (call_issue ss c).title = "Message call to external contract" := by
  by_cases h : (classify_target ss c).2 <;> simp [call_issue, h]

/-- State-change findings never carry the call-level title. -/
theorem message_call_issues_state_change (c : Call) (l : List Nat) :
    message_call_issues (l.map (state_change_issue c)) = [] := by
  induction l with
  | nil => rfl
  | cons a t ih =>
    simp only [List.map_cons, message_call_issues, List.filter_cons]
    have : ((state_change_issue c a).title
        == "Message call to external contract") = false := rfl
    rw [this]
    exact ih

/-- A singleton call-level issue survives the call-level filter. -/
theorem message_call_issues_call_issue (ss : StateSpace) (c : Call) :
    message_call_issues [call_issue ss c] = [call_issue ss c] := by
  simp [message_call_issues, List.filter_cons, call_issue_title]

/-- `message_call_issues` distributes over append. -/
theorem message_call_issues_append (l₁ l₂ : List Issue) :
    message_call_issues (l₁ ++ l₂) =
      message_call_issues l₁ ++ message_call_issues l₂ := by
  simp [message_call_issues, List.filter_append]

/-- The call-level findings contributed by one loop iteration: exactly one
when the call is a flagged `CALL`, none otherwise — independently of the
issue accumulator and of the dedup list. -/
theorem process_call_message_issues (maxD : Nat) (ss : StateSpace)
    (i : List Issue) (v : List Nat) (c : Call) :
    message_call_issues ((process_call maxD ss (i, v) c).1) =
      message_call_issues i ++
        (if c.type = "CALL" ∧ call_filter c = true then [call_issue ss c] else []) := by
  by_cases ht : c.type = "CALL"
  · by_cases hf : call_filter c = true
    · rw [if_pos ⟨ht, hf⟩]
      by_cases hm : c.state.get_current_instruction.address ∈ v
      · simp only [process_call, if_pos ht, hf, if_true, if_pos hm]
        rw [message_call_issues_append, message_call_issues_call_issue]
      · simp only [process_call, if_pos ht, hf, if_true, if_neg hm]
        rw [List.append_assoc, message_call_issues_append,
          message_call_issues_append, message_call_issues_call_issue,
          message_call_issues_state_change, List.append_nil]
    · rw [if_neg (fun h => hf h.2)]
      simp only [process_call, if_pos ht, hf, if_false]
      simp
  · rw [if_neg (fun h => ht h.1)]
    simp only [process_call, if_neg ht]
    simp

/-- Folding the loop body over a call list adds the same call-level
findings whatever the initial issue accumulator and dedup list are. -/
theorem foldl_process_call_message_issues (maxD : Nat) (ss : StateSpace) :
    ∀ (calls : List Call) (i₁ i₂ : List Issue) (v₁ v₂ : List Nat),
      message_call_issues i₁ = message_call_issues i₂ →
      message_call_issues ((calls.foldl (process_call maxD ss) (i₁, v₁)).1) =
        message_call_issues ((calls.foldl (process_call maxD ss) (i₂, v₂)).1) := by
  intro calls
  induction calls with
  | nil => intro i₁ i₂ v₁ v₂ h; exact h
  | cons c cs ih =>
    intro i₁ i₂ v₁ v₂ h
    simp only [List.foldl_cons]
    have h' : message_call_issues (process_call maxD ss (i₁, v₁) c).1 =
        message_call_issues (process_call maxD ss (i₂, v₂) c).1 := by
      rw [process_call_message_issues, process_call_message_issues, h]
    have hrec := ih (process_call maxD ss (i₁, v₁) c).1
      (process_call maxD ss (i₂, v₂) c).1
      (process_call maxD ss (i₁, v₁) c).2
      (process_call maxD ss (i₂, v₂) c).2 h'
    rw [Prod.mk.eta, Prod.mk.eta] at hrec
    exact hrec

/-- Removing the `Transaction` edges leaves every node's children
unchanged: the search's child enumeration already excludes them. -/
theorem child_nodes_remove_transaction_edges (ss : StateSpace) (node : Node) :
    child_nodes (remove_transaction_edges ss) node = child_nodes ss node := by
  simp only [child_nodes, remove_transaction_edges, List.filter_filter]
  congr 1
  apply List.filter_congr
  intro e _
  cases h1 : e.node_from == node.uid <;> cases h2 : e.type == JumpType.Transaction
    <;> simp [h1, h2]

/-- The fuel-indexed search is insensitive to `Transaction` edges. -/
theorem search_fuel_remove_transaction_edges (ss : StateSpace)
    (maxD tid : Nat) :
    ∀ (fuel : Nat) (node : Node) (si depth : Nat) (r : List Nat),
      search_fuel (remove_transaction_edges ss) maxD tid fuel node si depth r =
        search_fuel ss maxD tid fuel node si depth r := by
  intro fuel
  induction fuel with
  | zero => intro node si depth r; rfl
  | succ fuel ih =>
    intro node si depth r
    simp only [search_fuel]
    by_cases hd : depth < maxD
    · rw [if_pos hd, if_pos hd, child_nodes_remove_transaction_edges]
      have hfun :
          (fun (r : List Nat) (c : Node) =>
            let x := search_fuel (remove_transaction_edges ss) maxD tid fuel c 0
              (depth + 1) r
            x ++ x) =
          (fun (r : List Nat) (c : Node) =>
            let x := search_fuel ss maxD tid fuel c 0 (depth + 1) r
            x ++ x) := by
        funext r c
        rw [ih]
      rw [hfun]
    · rw [if_neg hd, if_neg hd]

/-- Claim C9: for every finite execution graph — cyclic intra-transaction
edges included — and every starting node, start index and transaction id,
the post-call state-change search terminates: its fuel-indexed
approximations stabilize as soon as the fuel covers the remaining budget
`max_search_depth - depth`, because every recursive call moves from
`depth` to `depth + 1` and the body is guarded by
`depth < max_search_depth`. -/
theorem C9_search_terminates (ss : StateSpace) (maxD tid : Nat) :
    ∀ (fuel : Nat) (node : Node) (si depth : Nat) (r : List Nat),
      maxD - depth ≤ fuel →
      search_fuel ss maxD tid fuel node si depth r =
        search_children ss maxD tid node si depth r := by
  intro fuel
  induction fuel with
  | zero =>
    intro node si depth r h
    have h0 : maxD - depth = 0 := Nat.le_zero.mp h
    unfold search_children
    rw [h0]
  | succ fuel ih =>
    intro node si depth r h
    unfold search_children
    by_cases hd : depth < maxD
    · have hk : maxD - depth = (maxD - (depth + 1)) + 1 := by omega
      rw [hk]
      simp only [search_fuel]
      rw [if_pos hd, if_pos hd]
      have hfun :
          (fun (r : List Nat) (c : Node) =>
            let x := search_fuel ss maxD tid fuel c 0 (depth + 1) r
            x ++ x) =
          (fun (r : List Nat) (c : Node) =>
            let x := search_fuel ss maxD tid (maxD - (depth + 1)) c 0 (depth + 1) r
            x ++ x) := by
        funext r c
        have hle : maxD - (depth + 1) ≤ fuel := by omega
        rw [ih c 0 (depth + 1) r hle]
        rfl
      rw [hfun]
    · have h0 : maxD - depth = 0 := by omega
      rw [h0]
      simp only [search_fuel]
      rw [if_neg hd]

/-- Witness for claim C9 at a concrete graph: fuel 100 exceeds the budget
64, so the approximation agrees with the search. -/
theorem C9_witness :
    search_fuel ssE2E 64 1 100 nodeA 1 0 [] =
      search_children ssE2E 64 1 nodeA 1 0 [] :=
  C9_search_terminates ssE2E 64 1 100 nodeA 1 0 [] (by decide)

/-- Claim C8: the post-call state-change search never follows an edge of
kind `Transaction`: deleting every `Transaction` edge from the statespace
leaves the search's result unchanged, for every graph, node, start index,
depth and accumulator, so no visited node is ever reached through a
transaction-boundary edge. -/
theorem C8_transaction_edges_never_followed (ss : StateSpace)
    (maxD tid : Nat) (node : Node) (si depth : Nat) (r : List Nat) :
    search_children (remove_transaction_edges ss) maxD tid node si depth r =
      search_children ss maxD tid node si depth r := by
  unfold search_children
  exact search_fuel_remove_transaction_edges ss maxD tid _ node si depth r

/-- Claim C10: on a graph where every node is reachable along exactly one
path (call node 0 → node 1 → node 2, the last holding the only `SSTORE`,
at 0x42 in the call's transaction), `search_children` nevertheless returns
the write's address four times: each recursion level extends the shared
accumulator with itself after its child returns. -/
theorem C10_duplicated_addresses :
    search_children ssE2E 64 1 nodeA 1 0 [] = [0x42, 0x42, 0x42, 0x42] ∧
    1 < (search_children ssE2E 64 1 nodeA 1 0 []).count 0x42 := by
  decide

/-- Claim C1 (code bug): on the end-to-end statespace — call to
`calldata_arg_0` with Concrete gas 5000, storage write at 0x42 two
`CONDITIONAL` edges later in the same transaction, every node reachable
along exactly one path — `execute` returns five issues, not the two the
spec promises: the lone state change is reported four times because the
search duplicates its shared accumulator at every recursion level. -/
theorem C1_end_to_end_five_issues :
    (detector.execute ssE2E).1.map (fun i => (i.title, i._type, i.address)) =
      [("Message call to external contract", "Warning", 10),
       ("State change after external call", "Warning", 0x42),
       ("State change after external call", "Warning", 0x42),
       ("State change after external call", "Warning", 0x42),
       ("State change after external call", "Warning", 0x42)] := by
  decide

set_option maxRecDepth 8192 in
/-- Counterexample to claim C4 as stated: running `execute` twice on the
same detector instance does not reproduce the first run's issues — the
instance's `calls_visited` list persists, so the second run skips the
state-change search and returns one issue instead of five. -/
theorem C4_counterexample_second_run_differs :
    ((detector.execute ssE2E).2.execute ssE2E).1 ≠ (detector.execute ssE2E).1 := by
  decide

/-- Claim C4 as amended: the issue list is local to each run, and the
call-level findings are reproducible across runs on the same instance —
only the state-change findings can be lost, because the dedup list
persists on the instance.  Formally, the second run returns exactly the
same "Message call to external contract" issues as the first. -/
theorem C4_amended_call_level_reproducible (m : ExternalCallModule)
    (ss : StateSpace) :
    message_call_issues (((m.execute ss).2).execute ss).1 =
      message_call_issues (m.execute ss).1 := by
  simp only [ExternalCallModule.execute]
  exact foldl_process_call_message_issues m.max_search_depth ss ss.calls
    [] [] _ _ rfl

/-- Counterexample to claim C3 as stated: with `max_search_depth = 1`, the
search invoked at node 0 (depth 0 < 1) does recurse into its child node 1
— reached by a non-transaction edge and holding a qualifying `SSTORE` at
address 7 — yet the child, entered at depth 1 = maxSearchDepth, is NOT
scanned: the write's address is absent from the result, because the
source's depth guard wraps the scan as well as the recursion. -/
theorem C3_counterexample_child_at_max_depth_not_scanned :
    child_nodes ssDepth nodeD0 = [nodeD1] ∧
    node_sstores nodeD1 1 0 = [7] ∧
    search_children ssDepth 1 1 nodeD0 0 0 [] = [] := by
  decide

/-- Claim C3 as amended: at depth strictly below the maximum, the search
scans the current node from its start index and recurses into each child
reached by a non-transaction edge at depth + 1 with start index 0 and the
same transaction id; but an invocation whose own depth has reached the
maximum returns its accumulator unchanged without scanning — so a child
entered at depth equal to maxSearchDepth is not scanned. -/
theorem C3_amended_depth_guard (ss : StateSpace) (maxD tid : Nat)
    (node : Node) (si depth : Nat) (r : List Nat) :
    (depth < maxD →
      search_children ss maxD tid node si depth r =
        (child_nodes ss node).foldl
          (fun acc c =>
            let x := search_children ss maxD tid c 0 (depth + 1) acc
            x ++ x)
          (r ++ node_sstores node tid si)) ∧
    (maxD ≤ depth → search_children ss maxD tid node si depth r = r) := by
  constructor
  · intro hd
    unfold search_children
    have hk : maxD - depth = (maxD - (depth + 1)) + 1 := by omega
    rw [hk]
    simp only [search_fuel]
    rw [if_pos hd]
  · intro hd
    unfold search_children
    have h0 : maxD - depth = 0 := by omega
    rw [h0]
    rfl

/-- Witness for claim C3's amended statement on the concrete depth-guard
graph: the unfolding at depth 0 < 1, and the unchanged accumulator for the
child invocation at depth 1 = maxSearchDepth. -/
theorem C3_witness :
    search_children ssDepth 1 1 nodeD0 0 0 [] =
      (child_nodes ssDepth nodeD0).foldl
        (fun acc c =>
          let x := search_children ssDepth 1 1 c 0 1 acc
          x ++ x)
        ([] ++ node_sstores nodeD0 1 0) ∧
    search_children ssDepth 1 1 nodeD1 0 1 [] = [] :=
  ⟨(C3_amended_depth_guard ssDepth 1 1 nodeD0 0 0 []).1 (by decide),
   (C3_amended_depth_guard ssDepth 1 1 nodeD1 0 1 []).2 (by decide)⟩

/-- Claim C2: for a call of kind `CALL`, the loop body builds at least one
issue exactly when (a) the destination is Symbolic and the gas is Concrete
with value above 2300, or (b) the gas is Symbolic and its rendering lacks
the substring "2300"; in particular a Symbolic-destination call with
Concrete gas at most 2300 is not flagged, and a Concrete-destination call
with Symbolic "2300"-free gas is flagged (branch (b) ignores the
destination). -/
theorem C2_filter_iff (maxD : Nat) (ss : StateSpace) (i : List Issue)
    (v : List Nat) (c : Call) (ht : c.type = "CALL") :
    ((process_call maxD ss (i, v) c).1 ≠ i ↔
      ((c.«to».type = VarType.SYMBOLIC ∧ c.gas.type = VarType.CONCRETE
          ∧ 2300 < c.gas.val)
        ∨ (c.gas.type = VarType.SYMBOLIC
          ∧ str_contains "2300" c.gas.render = false))) ∧
    (c.«to».type = VarType.SYMBOLIC → c.gas.type = VarType.CONCRETE →
      c.gas.val ≤ 2300 → (process_call maxD ss (i, v) c).1 = i) ∧
    (c.«to».type = VarType.CONCRETE → c.gas.type = VarType.SYMBOLIC →
      str_contains "2300" c.gas.render = false →
      (process_call maxD ss (i, v) c).1 ≠ i) := by
  have hmain : (process_call maxD ss (i, v) c).1 ≠ i ↔ call_filter c = true := by
    cases hf : call_filter c with
    | true =>
      apply iff_of_true _ rfl
      by_cases hm : c.state.get_current_instruction.address ∈ v
      · simp only [process_call, if_pos ht, hf, if_true, if_pos hm]
        exact append_cons_ne i _ []
      · simp only [process_call, if_pos ht, hf, if_true, if_neg hm]
        rw [List.append_assoc]
        exact append_cons_ne i _ _
    | false =>
      apply iff_of_false _ (by simp [hf])
      simp [process_call, ht, hf]
  have hiff := hmain.trans (call_filter_eq_true_iff c)
  refine ⟨hiff, ?_, ?_⟩
  · intro h₁ h₂ h₃
    by_contra hne
    rcases hiff.mp hne with ⟨_, _, hgt⟩ | ⟨hsym, _⟩
    · omega
    · exact VarType.noConfusion (h₂.symm.trans hsym)
  · intro _ h₂ h₃
    exact hiff.mpr (Or.inr ⟨h₂, h₃⟩)

/-- Witness for claim C2: the end-to-end call (Symbolic destination,
Concrete gas 5000) satisfies branch (a), so at least one issue is built. -/
theorem C2_witness :
    (process_call 64 ssE2E ([], []) callE2E).1 ≠ [] :=
  ((C2_filter_iff 64 ssE2E [] [] callE2E rfl).1).mpr (Or.inl (by decide))

/-- Claim C5: in one run of `execute` over two flagged `CALL`s sharing a
program address, the state-change search runs only for the first: the
second occurrence still contributes its own call-level issue but no
state-change issues, because the dedup is keyed by program address. -/
theorem C5_search_dedup_by_address (m : ExternalCallModule) (ss : StateSpace)
    (c₁ c₂ : Call)
    (hcalls : ss.calls = [c₁, c₂])
    (hv : m.calls_visited = [])
    (ht₁ : c₁.type = "CALL") (ht₂ : c₂.type = "CALL")
    (hf₁ : call_filter c₁ = true) (hf₂ : call_filter c₂ = true)
    (haddr : c₂.state.get_current_instruction.address =
      c₁.state.get_current_instruction.address) :
    (m.execute ss).1 =
      [call_issue ss c₁]
        ++ (search_children ss m.max_search_depth
              c₁.state.current_transaction.id c₁.node (c₁.state_index + 1) 0
              []).map (state_change_issue c₁)
        ++ [call_issue ss c₂] := by
  have h₁ : process_call m.max_search_depth ss ([], []) c₁ =
      ([call_issue ss c₁]
        ++ (search_children ss m.max_search_depth
              c₁.state.current_transaction.id c₁.node (c₁.state_index + 1) 0
              []).map (state_change_issue c₁),
        [c₁.state.get_current_instruction.address]) := by
    simp only [process_call, if_pos ht₁, hf₁, if_true, List.not_mem_nil,
      if_false, List.nil_append]
  simp only [ExternalCallModule.execute, hcalls, hv, List.foldl_cons,
    List.foldl_nil, h₁]
  simp only [process_call, if_pos ht₂, hf₂, if_true, haddr,
    List.mem_singleton, if_pos rfl]

/-- Witness for claim C5: two occurrences of the end-to-end call at the
same address — one call-level issue each, one set of state-change issues. -/
theorem C5_witness :
    (detector.execute ssTwoCalls).1 =
      [call_issue ssTwoCalls callE2E]
        ++ (search_children ssTwoCalls 64 1 nodeA 1 0 []).map
            (state_change_issue callE2E)
        ++ [call_issue ssTwoCalls callE2E] :=
  C5_search_dedup_by_address detector ssTwoCalls callE2E callE2E rfl rfl rfl
    rfl (by decide) (by decide) rfl

/-- Claim C6: classification of a flagged `CALL` is first-match-wins — a
destination text containing "calldata" is classified argument-supplied
even if it also contains "caller"; otherwise "caller" gives the
sender-supplied variant; the call-level issue's severity is Warning
exactly when the target was classified user-supplied and Informational
otherwise; and each flagged call contributes exactly one call-level
issue. -/
theorem C6_classification_order (maxD : Nat) (ss : StateSpace)
    (i : List Issue) (v : List Nat) (c : Call)
    (ht : c.type = "CALL") (hf : call_filter c = true) :
    (str_contains "calldata" c.«to».render = true →
      classify_target ss c =
        ("This contract executes a message call to "
          ++ "an address provided as a function argument. ", true)) ∧
    (str_contains "calldata" c.«to».render = false →
      str_contains "caller" c.«to».render = true →
      classify_target ss c =
        ("This contract executes a message call to "
          ++ "the address of the transaction sender. ", true)) ∧
    ((call_issue ss c)._type =
      if (classify_target ss c).2 then "Warning" else "Informational") ∧
    (message_call_issues ((process_call maxD ss (i, v) c).1) =
      message_call_issues i ++ [call_issue ss c]) := by
  refine ⟨?_, ?_, ?_, ?_⟩
  · intro hcd
    simp [classify_target, hcd]
  · intro hcd hcr
    simp [classify_target, hcd, hcr]
  · by_cases hu : (classify_target ss c).2 <;> simp [call_issue, hu]
  · rw [process_call_message_issues, if_pos ⟨ht, hf⟩]

/-- Witness for claim C6: the end-to-end call's destination
`calldata_arg_0` is classified argument-supplied, and one loop iteration
adds exactly one call-level issue. -/
theorem C6_witness :
    classify_target ssE2E callE2E =
      ("This contract executes a message call to "
        ++ "an address provided as a function argument. ", true) ∧
    message_call_issues ((process_call 64 ssE2E ([], []) callE2E).1) =
      message_call_issues [] ++ [call_issue ssE2E callE2E] :=
  ⟨(C6_classification_order 64 ssE2E [] [] callE2E rfl (by decide)).1
      (by decide),
   (C6_classification_order 64 ssE2E [] [] callE2E rfl (by decide)).2.2.2⟩

/-- Claim C7: for a flagged call whose destination text has neither
marker but matches the storage pattern with slot key 3, a lookup
reporting writer `setOwner` yields a Warning whose description mentions
both the slot and the writer; a lookup reporting no writer falls through
to the fixed/trusted classification with severity Informational. -/
theorem C7_storage_slot_provenance (ss : StateSpace) (c : Call)
    (_hf : call_filter c = true)
    (hcd : str_contains "calldata" c.«to».render = false)
    (hcr : str_contains "caller" c.«to».render = false)
    (hm : storage_search c.«to».render.data = some "3") :
    (ss.find_storage_write c.state.environment.active_account.address "3" =
        some "setOwner" →
      (classify_target ss c).2 = true ∧
      str_contains "3" (classify_target ss c).1 = true ∧
      str_contains "setOwner" (classify_target ss c).1 = true ∧
      (call_issue ss c)._type = "Warning") ∧
    (ss.find_storage_write c.state.environment.active_account.address "3" =
        none →
      (classify_target ss c).2 = false ∧
      (call_issue ss c)._type = "Informational") := by
  constructor
  · intro hw
    have hcls : classify_target ss c =
        ("This contract executes a message call to "
          ++ "an address found at storage slot " ++ "3" ++ ". "
          ++ "This storage slot can be written to by calling the function `"
          ++ "setOwner" ++ "`. ", true) := by
      simp [classify_target, hcd, hcr, hm, hw]
    refine ⟨by rw [hcls], by rw [hcls]; decide, by rw [hcls]; decide, ?_⟩
    simp [call_issue, hcls]
  · intro hw
    have hcls : classify_target ss c =
        ("This contract executes a message call to ", false) := by
      simp [classify_target, hcd, hcr, hm, hw]
    exact ⟨by rw [hcls], by simp [call_issue, hcls]⟩

/-- Witness for claim C7: destination `storage_3` with a lookup reporting
`setOwner` (and, on a second statespace, reporting nothing). -/
theorem C7_witness :
    ((classify_target ssStorageHit callStorage).2 = true ∧
      str_contains "3" (classify_target ssStorageHit callStorage).1 = true ∧
      str_contains "setOwner" (classify_target ssStorageHit callStorage).1 =
        true ∧
      (call_issue ssStorageHit callStorage)._type = "Warning") ∧
    ((classify_target ssStorageMiss callStorage).2 = false ∧
      (call_issue ssStorageMiss callStorage)._type = "Informational") :=
  ⟨(C7_storage_slot_provenance ssStorageHit callStorage (by decide)
      (by decide) (by decide) (by decide)).1 (by decide),
   (C7_storage_slot_provenance ssStorageMiss callStorage (by decide)
      (by decide) (by decide) (by decide)).2 rfl⟩
